import Mathlib

/-!
Verification development for the payment settlement pipeline of the
`versel-backend` repository (Razorpay integration).

The definitions below are a shallow embedding of the JavaScript source:

* `SHA256` / `hmacSha256Hex` — the `crypto.createHmac("sha256", ...)` call used
  by the `/verify-payment` route (standard HMAC-SHA256 with lowercase hex
  digest, as produced by node's `digest("hex")`).
* `OrderRec` / `PaymentRec` / `DB` — the mongoose `Order` and `Payment`
  collections with their schema validations (`min`, `enum`, `unique`,
  `required`), ids modelled as insertion counters.
* `verifyPayment`, `refundRoute`, `razorpayCreateOrder`,
  `updatePaymentStatusRoute`, `ordersCreateRoute` — the express route handlers
  from the Razorpay router, the orders router and the payments router.

JavaScript numbers are modelled as exact rationals (`ℚ`), truthiness of the
relevant values via `jsOrS` / `jsOrQ` / `strFalsy`, and the external gateway
(Razorpay SDK) as oracle functions passed to each route.
-/

namespace SHA256

/-- Truncation to 32 bits. -/
def wmask (x : Nat) : Nat := x % 4294967296

/-- Addition modulo 2^32. -/
def wadd (a b : Nat) : Nat := (a + b) % 4294967296

/-- Right rotation of a 32-bit word by `n` bits. -/
def rotr (n x : Nat) : Nat := wmask ((x >>> n) ||| (x <<< (32 - n)))

/-- Bitwise complement on 32 bits. -/
def wnot (x : Nat) : Nat := Nat.xor x 4294967295

def ch (x y z : Nat) : Nat := Nat.xor (Nat.land x y) (Nat.land (wnot x) z)

def maj (x y z : Nat) : Nat :=
  Nat.xor (Nat.xor (Nat.land x y) (Nat.land x z)) (Nat.land y z)

def bigS0 (x : Nat) : Nat := Nat.xor (Nat.xor (rotr 2 x) (rotr 13 x)) (rotr 22 x)

def bigS1 (x : Nat) : Nat := Nat.xor (Nat.xor (rotr 6 x) (rotr 11 x)) (rotr 25 x)

def smallS0 (x : Nat) : Nat := Nat.xor (Nat.xor (rotr 7 x) (rotr 18 x)) (x >>> 3)

def smallS1 (x : Nat) : Nat := Nat.xor (Nat.xor (rotr 17 x) (rotr 19 x)) (x >>> 10)

/-- The SHA-256 round constants. -/
def K : List Nat :=
  [1116352408, 1899447441, 3049323471, 3921009573, 961987163,
   1508970993, 2453635748, 2870763221, 3624381080, 310598401,
   607225278, 1426881987, 1925078388, 2162078206, 2614888103,
   3248222580, 3835390401, 4022224774, 264347078, 604807628,
   770255983, 1249150122, 1555081692, 1996064986, 2554220882,
   2821834349, 2952996808, 3210313671, 3336571891, 3584528711,
   113926993, 338241895, 666307205, 773529912, 1294757372,
   1396182291, 1695183700, 1986661051, 2177026350, 2456956037,
   2730485921, 2820302411, 3259730800, 3345764771, 3516065817,
   3600352804, 4094571909, 275423344, 430227734, 506948616,
   659060556, 883997877, 958139571, 1322822218, 1537002063,
   1747873779, 1955562222, 2024104815, 2227730452, 2361852424,
   2428436474, 2756734187, 3204031479, 3329325298]

/-- The SHA-256 initial hash value. -/
def H0 : List Nat :=
  [1779033703, 3144134277, 1013904242, 2773480762,
   1359893119, 2600822924, 528734635, 1541459225]

/-- Big-endian split of a 64-bit length into 8 bytes. -/
def lenBytes (n : Nat) : List Nat :=
  [n >>> 56 % 256, n >>> 48 % 256, n >>> 40 % 256, n >>> 32 % 256,
   n >>> 24 % 256, n >>> 16 % 256, n >>> 8 % 256, n % 256]

/-- SHA-256 padding: append `0x80`, zero bytes, and the 64-bit bit length. -/
def pad (msg : List Nat) : List Nat :=
  let l := msg.length
  let zeros := (64 + 56 - (l + 1) % 64) % 64
  msg ++ [0x80] ++ List.replicate zeros 0 ++ lenBytes (8 * l)

/-- Split a byte list into 64-byte blocks (structural recursion on a fuel
bound so the definition reduces in the kernel). -/
def blocksAux : Nat → List Nat → List (List Nat)
  | 0, _ => []
  | _, [] => []
  | fuel + 1, l => l.take 64 :: blocksAux fuel (l.drop 64)

/-- Split a byte list into 64-byte blocks. -/
def blocks (l : List Nat) : List (List Nat) := blocksAux l.length l

/-- Big-endian 32-bit words from a 64-byte block. -/
def toWords : List Nat → List Nat
  | a :: b :: c :: d :: rest =>
      (((a * 256 + b) * 256 + c) * 256 + d) :: toWords rest
  | _ => []

/-- Extend the 16 block words to the 64-entry message schedule. -/
def schedule (w16 : List Nat) : List Nat :=
  (List.range 48).foldl
    (fun w _ =>
      let t := w.length
      w ++ [wadd (wadd (smallS1 (w.getD (t - 2) 0)) (w.getD (t - 7) 0))
                 (wadd (smallS0 (w.getD (t - 15) 0)) (w.getD (t - 16) 0))])
    w16

/-- One SHA-256 compression step over a 64-byte block. -/
def compress (H : List Nat) (block : List Nat) : List Nat :=
  let ws := schedule (toWords block)
  let s := (ws.zip K).foldl
    (fun (s : Nat × Nat × Nat × Nat × Nat × Nat × Nat × Nat) wk =>
      let (a, b, c, d, e, f, g, h) := s
      let t1 := wadd (wadd (wadd h (bigS1 e)) (wadd (ch e f g) wk.2)) wk.1
      let t2 := wadd (bigS0 a) (maj a b c)
      (wadd t1 t2, a, b, c, wadd d t1, e, f, g))
    (H.getD 0 0, H.getD 1 0, H.getD 2 0, H.getD 3 0,
     H.getD 4 0, H.getD 5 0, H.getD 6 0, H.getD 7 0)
  let (a, b, c, d, e, f, g, h) := s
  List.zipWith wadd H [a, b, c, d, e, f, g, h]

/-- A 32-bit word as 4 big-endian bytes. -/
def wordBytes (w : Nat) : List Nat :=
  [w >>> 24 % 256, w >>> 16 % 256, w >>> 8 % 256, w % 256]

/-- SHA-256 of a byte list, as a 32-byte list. -/
def sha256 (msg : List Nat) : List Nat :=
  ((blocks (pad msg)).foldl compress H0).foldr (fun w acc => wordBytes w ++ acc) []

/-- Lowercase hexadecimal digits. -/
def hexDigits : List Char := "0123456789abcdef".toList

/-- Lowercase hex encoding of a byte list (node's `digest("hex")`). -/
def bytesToHex (l : List Nat) : String :=
  String.mk (l.foldr
    (fun b acc => hexDigits.getD (b >>> 4 % 16) '0' :: hexDigits.getD (b % 16) '0' :: acc)
    [])

/-- UTF-8 encoding of a single character. -/
def utf8Char (c : Char) : List Nat :=
  let n := c.toNat
  if n < 0x80 then [n]
  else if n < 0x800 then
    [0xC0 ||| (n >>> 6), 0x80 ||| (n &&& 0x3F)]
  else if n < 0x10000 then
    [0xE0 ||| (n >>> 12), 0x80 ||| ((n >>> 6) &&& 0x3F), 0x80 ||| (n &&& 0x3F)]
  else
    [0xF0 ||| (n >>> 18), 0x80 ||| ((n >>> 12) &&& 0x3F),
     0x80 ||| ((n >>> 6) &&& 0x3F), 0x80 ||| (n &&& 0x3F)]

/-- UTF-8 bytes of a string. -/
def utf8 (s : String) : List Nat := s.toList.foldr (fun c acc => utf8Char c ++ acc) []

/-- HMAC-SHA256 over byte lists (RFC 2104, block size 64). -/
def hmacSha256 (key msg : List Nat) : List Nat :=
  let k0 := if 64 < key.length then sha256 key else key
  let k := k0 ++ List.replicate (64 - k0.length) 0
  let ipad := k.map (Nat.xor 0x36)
  let opad := k.map (Nat.xor 0x5c)
  sha256 (opad ++ sha256 (ipad ++ msg))

end SHA256

/-- The `crypto.createHmac("sha256", key).update(msg).digest("hex")`:
HMAC-SHA256 over the UTF-8 bytes of `msg` keyed with the UTF-8 bytes of `key`,
encoded as lowercase hex. -/
def hmacSha256Hex (key msg : String) : String :=
  SHA256.bytesToHex (SHA256.hmacSha256 (SHA256.utf8 key) (SHA256.utf8 msg))

/-! ## JavaScript value helpers -/

/-- JS `x || d` for an optional string: `undefined`, `null` and `""` are falsy. -/
def jsOrS (v : Option String) (d : String) : String :=
  match v with
  | none => d
  | some s => if s = "" then d else s

/-- JS `x || d` for an optional number: `undefined`, `null` and `0` are falsy. -/
def jsOrQ (v : Option ℚ) (d : ℚ) : ℚ :=
  match v with
  | none => d
  | some q => if q = 0 then d else q

/-- JS `x || null` for an optional string. -/
def jsOrNull (v : Option String) : Option String :=
  match v with
  | none => none
  | some s => if s = "" then none else some s

/-- JS `!x` for an optional string value. -/
def strFalsy (v : Option String) : Bool :=
  match v with
  | none => true
  | some s => s == ""

/-- JavaScript `Math.round`: round half toward positive infinity. -/
def jsRound (q : ℚ) : ℤ := ⌊q + 1 / 2⌋

/-! ## Data model (mongoose schemas) -/

/-- The `customerInfo` sub-document shared by the Order and Payment schemas. -/
structure CustomerInfo where
  firstName : String
  lastName : String
  email : String
  phoneNumber : String
deriving DecidableEq, Repr

/-- Postal address sub-document of the Order schema. -/
structure Address where
  streetAddress : String
  city : String
  state : String
  postalCode : String
  country : String
deriving DecidableEq, Repr

/-- One Order line item.  `productId`/`productName` are `required` in the
schema, so a missing value makes validation fail. -/
structure OrderItem where
  productId : Option String
  productName : Option String
  quantity : ℚ
  unitPrice : ℚ
  totalPrice : ℚ
deriving DecidableEq, Repr

/-- The `pricing` sub-document of the Order schema. -/
structure Pricing where
  subtotal : ℚ
  tax : ℚ
  shipping : ℚ
  discount : ℚ
  total : ℚ
deriving DecidableEq, Repr

/-- Embedded `payment` summary of the Order schema. -/
structure EmbeddedPayment where
  method : String
  status : String
  transactionId : Option String
  paidAt : Option Nat
deriving DecidableEq, Repr

/-- A persisted Order document.  `id` models the generated `_id`,
`orderNumber` the `ORD-` counter assigned by the pre-save hook. -/
structure OrderRec where
  id : Nat
  orderNumber : Nat
  customerInfo : CustomerInfo
  shippingAddress : Address
  billingAddress : Address
  items : List OrderItem
  pricing : Pricing
  payment : EmbeddedPayment
  status : String
deriving DecidableEq, Repr

/-- The `paymentMethod.details` of the Payment schema (Razorpay variant fields). -/
structure MethodDetails where
  razorpayOrderId : String
  razorpayPaymentId : String
  razorpaySignature : String
  method : Option String
  bank : Option String
  wallet : Option String
  vpa : Option String
deriving DecidableEq, Repr

/-- The `amount` sub-document of the Payment schema. -/
structure AmountInfo where
  subtotal : ℚ
  tax : ℚ
  shipping : ℚ
  discount : ℚ
  total : ℚ
deriving DecidableEq, Repr

/-- The `transactionDetails` sub-document of the Payment schema. -/
structure TransactionDetails where
  transactionId : String
  gatewayTransactionId : String
  gatewayName : String
  processingFee : ℚ
deriving DecidableEq, Repr

/-- The `refundDetails` sub-document of the Payment schema. -/
structure RefundDetails where
  refundId : String
  refundAmount : ℚ
  refundReason : String
  refundStatus : String
  refundedAt : Nat
deriving DecidableEq, Repr

/-- The `timestamps` sub-document of the Payment schema. -/
structure PayTimestamps where
  initiatedAt : Option Nat
  processedAt : Option Nat
  completedAt : Option Nat
  failedAt : Option Nat
deriving DecidableEq, Repr

/-- A persisted Payment document.  `paymentId` is the schema field with
`unique: true` (the gateway payment id in the settlement flow). -/
structure PaymentRec where
  id : Nat
  paymentId : String
  orderId : Nat
  orderNumber : Nat
  customerInfo : CustomerInfo
  methodType : String
  methodDetails : MethodDetails
  amount : AmountInfo
  status : String
  transactionDetails : TransactionDetails
  refundDetails : Option RefundDetails
  timestamps : PayTimestamps
deriving DecidableEq, Repr

/-- The two persisted collections. -/
structure DB where
  orders : List OrderRec
  payments : List PaymentRec
deriving DecidableEq, Repr

def emptyDB : DB := ⟨[], []⟩

/-- Payment status enum of the Payment schema. -/
def paymentStatuses : List String :=
  ["Pending", "Processing", "Completed", "Failed", "Cancelled", "Refunded",
   "Partially Refunded"]

/-- The `refundDetails.refundStatus` enum of the Payment schema. -/
def refundStatusEnum : List String := ["Pending", "Processed", "Failed"]

/-- Order status enum of the Order schema. -/
def orderStatuses : List String :=
  ["Pending", "Confirmed", "Processing", "Shipped", "Delivered", "Cancelled",
   "Returned"]

/-- Embedded payment status enum of the Order schema. -/
def orderPaymentStatuses : List String := ["Pending", "Paid", "Failed", "Refunded"]

/-- Order schema validation: `required` fields and `min` bounds. -/
def orderValid (o : OrderRec) : Bool :=
  o.items.all (fun i =>
    i.productId.isSome && i.productName.isSome && decide (1 ≤ i.quantity) &&
    decide (0 ≤ i.unitPrice) && decide (0 ≤ i.totalPrice)) &&
  decide (0 ≤ o.pricing.subtotal) && decide (0 ≤ o.pricing.tax) &&
  decide (0 ≤ o.pricing.shipping) && decide (0 ≤ o.pricing.discount) &&
  decide (0 ≤ o.pricing.total) &&
  orderPaymentStatuses.contains o.payment.status &&
  orderStatuses.contains o.status

/-- Payment schema validation: `min` bounds and `enum` values (mongoose
validates these on every `save`, including the refund-details update). -/
def paymentValid (p : PaymentRec) : Bool :=
  decide (0 ≤ p.amount.subtotal) && decide (0 ≤ p.amount.tax) &&
  decide (0 ≤ p.amount.shipping) && decide (0 ≤ p.amount.discount) &&
  decide (0 ≤ p.amount.total) &&
  paymentStatuses.contains p.status &&
  decide (0 ≤ p.transactionDetails.processingFee) &&
  (match p.refundDetails with
   | none => true
   | some rd => refundStatusEnum.contains rd.refundStatus &&
       decide (0 ≤ rd.refundAmount))

/-! ## Document creation (`Order.create`, `Payment.create`) -/

/-- Order fields supplied by a caller of `Order.create` (everything except the
generated `_id` and `orderNumber`). -/
structure OrderPayload where
  customerInfo : CustomerInfo
  shippingAddress : Address
  billingAddress : Address
  items : List OrderItem
  pricing : Pricing
  payment : EmbeddedPayment
  status : String
deriving DecidableEq, Repr

/-- The Order document built from a payload: `_id` is the next generated id and
the pre-save hook derives `orderNumber` from `countDocuments() + 1`. -/
def mkOrder (db : DB) (pl : OrderPayload) : OrderRec :=
  { id := db.orders.length
    orderNumber := db.orders.length + 1
    customerInfo := pl.customerInfo
    shippingAddress := pl.shippingAddress
    billingAddress := pl.billingAddress
    items := pl.items
    pricing := pl.pricing
    payment := pl.payment
    status := pl.status }

/-- The `Order.create`: validate against the schema and append. -/
def orderCreate (db : DB) (pl : OrderPayload) : Except Unit (OrderRec × DB) :=
  let o := mkOrder db pl
  if orderValid o then .ok (o, { db with orders := db.orders ++ [o] })
  else .error ()

/-- Payment fields supplied by a caller of `Payment.create`. -/
structure PaymentPayload where
  paymentId : String
  orderId : Nat
  orderNumber : Nat
  customerInfo : CustomerInfo
  methodType : String
  methodDetails : MethodDetails
  amount : AmountInfo
  status : String
  transactionDetails : TransactionDetails
  refundDetails : Option RefundDetails
  timestamps : PayTimestamps
deriving DecidableEq, Repr

def mkPayment (db : DB) (pl : PaymentPayload) : PaymentRec :=
  { id := db.payments.length
    paymentId := pl.paymentId
    orderId := pl.orderId
    orderNumber := pl.orderNumber
    customerInfo := pl.customerInfo
    methodType := pl.methodType
    methodDetails := pl.methodDetails
    amount := pl.amount
    status := pl.status
    transactionDetails := pl.transactionDetails
    refundDetails := pl.refundDetails
    timestamps := pl.timestamps }

/-- The `Payment.create`: schema validation plus the `unique: true` index on
`paymentId` — inserting a second document with the same `paymentId` fails. -/
def paymentCreate (db : DB) (pl : PaymentPayload) : Except Unit (PaymentRec × DB) :=
  let p := mkPayment db pl
  if db.payments.all (fun q => q.paymentId != p.paymentId) && paymentValid p then
    .ok (p, { db with payments := db.payments ++ [p] })
  else .error ()

/-- The `payment.save()` after mutating a fetched document: mongoose re-validates
the document against the schema; on success the stored document (matched by
`_id`) is replaced. -/
def paymentSave (db : DB) (p : PaymentRec) : Except Unit DB :=
  if paymentValid p then
    .ok { db with payments := db.payments.map (fun q => if q.id = p.id then p else q) }
  else .error ()

/-! ## Gateway (Razorpay SDK) data -/

/-- The `razorpay.payments.fetch` result: amount is in paise (minor units). -/
structure GatewayPayment where
  amount : ℤ
  currency : String
  status : String
  method : String
  bank : Option String
  wallet : Option String
  vpa : Option String
deriving DecidableEq, Repr

/-- The `razorpay.payments.refund` result: amount is in paise. -/
structure GatewayRefund where
  id : String
  amount : ℤ
  status : String
deriving DecidableEq, Repr

/-- The `razorpay.orders.create` result. -/
structure GatewayIntent where
  id : String
  amount : ℤ
  currency : String
  receipt : String
  status : String
deriving DecidableEq, Repr

/-! ## The Razorpay router (`/api/razorpay`) -/

/-- The configured test key secret (`razorpayConfig.test.key_secret`). -/
def razorpayKeySecret : String := "KVRm4qSsf2kMhVD2fKvr0AZj"

/-- The expected callback signature: HMAC-SHA256 of
`razorpay_order_id + "|" + razorpay_payment_id` keyed with the secret,
hex-encoded. -/
def expectedSignature (oid pid : String) : String :=
  hmacSha256Hex razorpayKeySecret (oid ++ "|" ++ pid)

/-- The `const isAuthentic = expectedSignature === razorpay_signature`. -/
def isAuthentic (oid pid sig : String) : Bool :=
  expectedSignature oid pid == sig

/-- The `orderData.customerInfo` draft of `/verify-payment` (all fields may be
absent). -/
structure DraftCustomer where
  firstName : Option String
  lastName : Option String
  email : Option String
  phoneNumber : Option String
deriving DecidableEq, Repr

/-- The `orderData.address` draft of `/verify-payment`. -/
structure DraftAddress where
  street_address : Option String
  city : Option String
  state : Option String
  postal_code : Option String
  country : Option String
deriving DecidableEq, Repr

/-- One entry of `orderData.products` in `/verify-payment`. -/
structure DraftProduct where
  id : Option String
  name : Option String
  quantity : Option ℚ
  price : Option ℚ
  rental_price : Option ℚ
deriving DecidableEq, Repr

/-- The `orderData` body field of `/verify-payment`. -/
structure OrderDraft where
  customerInfo : Option DraftCustomer
  address : Option DraftAddress
  products : Option (List DraftProduct)
  totalPrice : Option ℚ
  orderId : Option Nat
deriving DecidableEq, Repr

def draftCustomerInfo (od : Option OrderDraft) : CustomerInfo :=
  let c := od.bind (·.customerInfo)
  { firstName := jsOrS (c.bind (·.firstName)) "Guest"
    lastName := jsOrS (c.bind (·.lastName)) "User"
    email := jsOrS (c.bind (·.email)) "guest@example.com"
    phoneNumber := jsOrS (c.bind (·.phoneNumber)) "0000000000" }

def draftAddress (od : Option OrderDraft) : Address :=
  let a := od.bind (·.address)
  { streetAddress := jsOrS (a.bind (·.street_address)) "Address"
    city := jsOrS (a.bind (·.city)) "City"
    state := jsOrS (a.bind (·.state)) "State"
    postalCode := jsOrS (a.bind (·.postal_code)) "000000"
    country := jsOrS (a.bind (·.country)) "India" }

/-- The `orderData?.totalPrice || 0`. -/
def draftTotal (od : Option OrderDraft) : ℚ := jsOrQ (od.bind (·.totalPrice)) 0

/-- The item snapshot built for each entry of `orderData.products`. -/
def draftItem (p : DraftProduct) : OrderItem :=
  { productId := p.id
    productName := p.name
    quantity := jsOrQ p.quantity 1
    unitPrice := jsOrQ p.price (jsOrQ p.rental_price 0)
    totalPrice := jsOrQ p.price (jsOrQ p.rental_price 0) * jsOrQ p.quantity 1 }

/-- The `orderPayload` literal of `/verify-payment` (source lines 137–178). -/
def buildOrderPayload (od : Option OrderDraft) (pid : String) : OrderPayload :=
  { customerInfo := draftCustomerInfo od
    shippingAddress := draftAddress od
    billingAddress := draftAddress od
    items := ((od.bind (·.products)).getD []).map draftItem
    pricing := { subtotal := draftTotal od, tax := 0, shipping := 0,
                 discount := 0, total := draftTotal od }
    payment := { method := "Razorpay", status := "Pending",
                 transactionId := some pid, paidAt := none }
    status := "Pending" }

/-- The `paymentData` literal of `/verify-payment` (source lines 184–231),
including the `orderData?.orderId` override of `orderId`. -/
def buildPaymentData (now : Nat) (od : Option OrderDraft) (oid pid sig : String)
    (gp : GatewayPayment) (newOrder : OrderRec) : PaymentPayload :=
  { paymentId := pid
    orderId := match od.bind (·.orderId) with
               | some x => x
               | none => newOrder.id
    orderNumber := newOrder.orderNumber
    customerInfo := draftCustomerInfo od
    methodType := "Razorpay"
    methodDetails := { razorpayOrderId := oid, razorpayPaymentId := pid,
                       razorpaySignature := sig, method := some gp.method,
                       bank := jsOrNull gp.bank, wallet := jsOrNull gp.wallet,
                       vpa := jsOrNull gp.vpa }
    amount := { subtotal := jsOrQ (od.bind (·.totalPrice)) ((gp.amount : ℚ) / 100)
                tax := 0, shipping := 0, discount := 0
                total := jsOrQ (od.bind (·.totalPrice)) ((gp.amount : ℚ) / 100) }
    status := if gp.status = "captured" then "Completed" else "Processing"
    transactionDetails := { transactionId := pid, gatewayTransactionId := pid,
                            gatewayName := "Razorpay", processingFee := 0 }
    refundDetails := none
    timestamps := { initiatedAt := some now, processedAt := some now,
                    completedAt := if gp.status = "captured" then some now else none,
                    failedAt := none } }

/-- Outcome of `POST /api/razorpay/verify-payment`.  The four failure paths
after the field check all answer with an HTTP error and are distinguished here
by which statement raised them. -/
inductive SettleResult where
  | missingFields
  | invalidSignature
  | fetchFailed
  | orderCreateFailed
  | paymentCreateFailed
  | success (order : OrderRec) (payment : PaymentRec)
deriving DecidableEq, Repr

/-- The `POST /api/razorpay/verify-payment` — the settlement coordinator.
`fetch` is the `razorpay.payments.fetch` oracle (`none` = the SDK call threw);
`now` models `new Date()`.  Note that no lookup of an existing Payment with
the same `razorpay_payment_id` happens anywhere on this path. -/
def verifyPayment (fetch : String → Option GatewayPayment) (now : Nat) (db : DB)
    (oid pid sig : Option String) (orderData : Option OrderDraft) :
    SettleResult × DB :=
  if strFalsy oid || strFalsy pid || strFalsy sig then (.missingFields, db)
  else
    let oidS := oid.getD ""
    let pidS := pid.getD ""
    let sigS := sig.getD ""
    if isAuthentic oidS pidS sigS then
      match fetch pidS with
      | none => (.fetchFailed, db)
      | some gp =>
        match orderCreate db (buildOrderPayload orderData pidS) with
        | .error _ => (.orderCreateFailed, db)
        | .ok (newOrder, db1) =>
          match paymentCreate db1
              (buildPaymentData now orderData oidS pidS sigS gp newOrder) with
          | .error _ => (.paymentCreateFailed, db1)
          | .ok (newPayment, db2) => (.success newOrder newPayment, db2)
    else (.invalidSignature, db)

/-- The `payment.refundDetails = {...}` and conditional status assignment of
`POST /api/razorpay/refund` (source lines 336–347), applied to the fetched
Payment document before `payment.save()`. -/
def applyRefund (now : Nat) (r : GatewayRefund) (reason : String)
    (p : PaymentRec) : PaymentRec :=
  { p with
    refundDetails := some { refundId := r.id, refundAmount := (r.amount : ℚ) / 100,
                            refundReason := reason, refundStatus := r.status,
                            refundedAt := now }
    status := if r.status = "processed" then
                (if (r.amount : ℚ) = p.amount.total * 100 then "Refunded"
                 else "Partially Refunded")
              else p.status }

/-- The `if (amount && amount > 0) refundOptions.amount = Math.round(amount * 100)`. -/
def refundAmountPaise (amount : Option ℚ) : Option ℤ :=
  match amount with
  | none => none
  | some a => if a ≠ 0 ∧ 0 < a then some (jsRound (a * 100)) else none

/-- Outcome of `POST /api/razorpay/refund`.  `serverError` is the catch-all
500 reached when the gateway call or `payment.save()` throws. -/
inductive RefundResult where
  | missingPaymentId
  | serverError
  | success (refundId : String) (amount : ℚ) (status : String)
deriving DecidableEq, Repr

/-- The `POST /api/razorpay/refund`.  `gw` is the `razorpay.payments.refund`
oracle (`none` = the SDK call threw, e.g. the gateway rejected the refund).
The returned list is the trace of gateway refund calls issued
(payment id, optional amount in paise). -/
def refundRoute (gw : String → Option ℤ → Option GatewayRefund) (now : Nat)
    (db : DB) (payment_id : Option String) (amount : Option ℚ)
    (notesReason : Option String) :
    RefundResult × DB × List (String × Option ℤ) :=
  if strFalsy payment_id then (.missingPaymentId, db, [])
  else
    let pid := payment_id.getD ""
    let amtOpt := refundAmountPaise amount
    match gw pid amtOpt with
    | none => (.serverError, db, [(pid, amtOpt)])
    | some r =>
      match db.payments.find? (fun q => q.paymentId == pid) with
      | none => (.success r.id ((r.amount : ℚ) / 100) r.status, db, [(pid, amtOpt)])
      | some p =>
        let p' := applyRefund now r (jsOrS notesReason "Customer request") p
        match paymentSave db p' with
        | .error _ => (.serverError, db, [(pid, amtOpt)])
        | .ok db' => (.success r.id ((r.amount : ℚ) / 100) r.status, db', [(pid, amtOpt)])

/-! ## `PUT /api/payments/:id/status` (payments router) -/

/-- The `validStatuses` list of the handler. -/
def validStatuses : List String :=
  ["Pending", "Processing", "Completed", "Failed", "Cancelled", "Refunded",
   "Partially Refunded"]

/-- Outcome of `PUT /api/payments/:id/status`. -/
inductive UpdateStatusResult where
  | invalidStatus
  | serverError
  | notFound
  | success (p : PaymentRec)
deriving DecidableEq, Repr

/-- The `PUT /api/payments/:id/status`.  After the status check the handler builds
the update object `{ status, timestamps: { ...payment.timestamps, ... } }` as
an argument of the very `Payment.findByIdAndUpdate` call whose result is bound
to `const payment` — i.e. `payment` is read inside its own initializer, while
it is still in the temporal dead zone.  Evaluating the argument therefore
throws `ReferenceError: Cannot access 'payment' before initialization` before
any database operation runs, and the catch block answers 500.  No document is
ever read or written on this path. -/
def updatePaymentStatusRoute (db : DB) (_id : Nat) (status : String) :
    UpdateStatusResult × DB :=
  if validStatuses.contains status = false then (.invalidStatus, db)
  else (.serverError, db)

/-! ## `POST /api/orders` (orders router) -/

/-- The request body of the generic order-creation endpoint; the three fields
the handler checks for presence are optional. -/
structure OrderBody where
  customerInfo : Option CustomerInfo
  shippingAddress : Address
  billingAddress : Address
  items : Option (List OrderItem)
  pricing : Option Pricing
  payment : EmbeddedPayment
  status : String
deriving DecidableEq, Repr

/-- Outcome of `POST /api/orders`. -/
inductive CreateOrderEpResult where
  | missingFields
  | invalidItems
  | invalidPricing
  | serverError
  | success (o : OrderRec)
deriving DecidableEq, Repr

/-- The `POST /api/orders`: presence checks, the non-empty items check, the
`!pricing.total || pricing.total <= 0` check, then `Order.create`. -/
def ordersCreateRoute (db : DB) (body : OrderBody) : CreateOrderEpResult × DB :=
  match body.customerInfo, body.items, body.pricing with
  | some ci, some its, some pr =>
    if its.length = 0 then (.invalidItems, db)
    else if pr.total = 0 ∨ pr.total ≤ 0 then (.invalidPricing, db)
    else
      match orderCreate db { customerInfo := ci, shippingAddress := body.shippingAddress,
                             billingAddress := body.billingAddress, items := its,
                             pricing := pr, payment := body.payment,
                             status := body.status } with
      | .error _ => (.serverError, db)
      | .ok (o, db') => (.success o, db')
  | _, _, _ => (.missingFields, db)

/-! ## `POST /api/razorpay/create-order` (intent creation) -/

/-- The `options` object passed to `razorpay.orders.create`. -/
structure CreateIntentOptions where
  amount : ℤ
  currency : String
  receipt : String
deriving DecidableEq, Repr

/-- Outcome of `POST /api/razorpay/create-order`.  The second component is the
options object sent to the gateway, when the call was reached. -/
inductive CreateIntentResult where
  | invalidAmount
  | missingReceipt
  | unsupportedCurrency
  | gatewayError
  | success (intent : GatewayIntent)
deriving DecidableEq, Repr

/-- The `POST /api/razorpay/create-order`: validate amount/receipt/currency, build
`options` with `amount: Math.round(amount * 100)`, call the gateway. -/
def razorpayCreateOrder (create : CreateIntentOptions → Option GatewayIntent)
    (amount : Option ℚ) (currency : Option String) (receipt : Option String) :
    CreateIntentResult × Option CreateIntentOptions :=
  let amountFalsy := match amount with | none => true | some a => a == 0
  if amountFalsy || decide (amount.getD 0 ≤ 0) then (.invalidAmount, none)
  else if strFalsy receipt then (.missingReceipt, none)
  else
    let cur := currency.getD "INR"
    if ["INR"].contains cur = false then (.unsupportedCurrency, none)
    else
      let options : CreateIntentOptions :=
        { amount := jsRound (amount.getD 0 * 100), currency := cur,
          receipt := receipt.getD "" }
      match create options with
      | none => (.gatewayError, some options)
      | some intent => (.success intent, some options)

/-! ## Spec-side comparison definition -/

/-- Modelled from the spec: "banker's rounding to the nearest integer minor
unit" — round half to even.  This definition follows the spec's words and is
only used to compare against the code's `Math.round` conversion. -/
def specBankersRound (q : ℚ) : ℤ :=
  let f := ⌊q⌋
  let r := q - f
  if r < 1 / 2 then f
  else if 1 / 2 < r then f + 1
  else if f % 2 = 0 then f else f + 1

/-! ## Concrete fixtures (used by witnesses and counterexamples) -/

/-- Discriminator for the settlement outcome. -/
def SettleResult.isSuccess : SettleResult → Bool
  | .success _ _ => true
  | _ => false

/-- Discriminator for the generic order-creation outcome. -/
def CreateOrderEpResult.isSuccess : CreateOrderEpResult → Bool
  | .success _ => true
  | _ => false

/-- A captured gateway payment of 49900 paise (499.00 INR). -/
def gpCaptured : GatewayPayment :=
  { amount := 49900, currency := "INR", status := "captured", method := "card",
    bank := none, wallet := none, vpa := none }

/-- A fetch oracle knowing only the payment `pay_1`. -/
def fetch1 : String → Option GatewayPayment :=
  fun pid => if pid == "pay_1" then some gpCaptured else none

/-- The matching signature for the callback (`order_1`, `pay_1`). -/
def sig1 : String := expectedSignature "order_1" "pay_1"

/-- A minimal order draft carrying only a total price. -/
def draft1 : OrderDraft :=
  { customerInfo := none, address := none, products := none,
    totalPrice := some 499, orderId := none }

/-- The same draft with a client-supplied `orderId`. -/
def draftOid : OrderDraft :=
  { customerInfo := none, address := none, products := none,
    totalPrice := some 499, orderId := some 999 }

/-- A draft with no total price at all. -/
def draftNoTotal : OrderDraft :=
  { customerInfo := none, address := none, products := none,
    totalPrice := none, orderId := none }

/-- The Order created by the first settlement of the fixture callback. -/
def oExp : OrderRec := mkOrder emptyDB (buildOrderPayload (some draft1) "pay_1")

/-- The Payment created by the first settlement of the fixture callback. -/
def pExp : PaymentRec :=
  mkPayment { emptyDB with orders := [oExp] }
    (buildPaymentData 0 (some draft1) "order_1" "pay_1" sig1 gpCaptured oExp)

/-- The database after the first settlement of the fixture callback. -/
def dbExp : DB := { orders := [oExp], payments := [pExp] }

/-- A stored Payment with gateway payment id `pay_1` and total 499. -/
def payFix : PaymentRec :=
  { id := 0, paymentId := "pay_1", orderId := 0, orderNumber := 1
    customerInfo := { firstName := "Guest", lastName := "User",
                      email := "guest@example.com", phoneNumber := "0000000000" }
    methodType := "Razorpay"
    methodDetails := { razorpayOrderId := "order_1", razorpayPaymentId := "pay_1",
                       razorpaySignature := "s", method := some "card",
                       bank := none, wallet := none, vpa := none }
    amount := { subtotal := 499, tax := 0, shipping := 0, discount := 0, total := 499 }
    status := "Completed"
    transactionDetails := { transactionId := "pay_1", gatewayTransactionId := "pay_1",
                            gatewayName := "Razorpay", processingFee := 0 }
    refundDetails := none
    timestamps := { initiatedAt := some 0, processedAt := some 0,
                    completedAt := some 0, failedAt := none } }

/-- A database holding only `payFix`. -/
def dbWithPay : DB := { orders := [], payments := [payFix] }

/-- A processed gateway refund of the full 49900 paise. -/
def refundFix : GatewayRefund := { id := "rfnd_1", amount := 49900, status := "processed" }

/-- A refund oracle that always reports `refundFix`. -/
def gwRefund : String → Option ℤ → Option GatewayRefund := fun _ _ => some refundFix

/-- A processed gateway refund of 20000 paise (200.00). -/
def refundFix200 : GatewayRefund := { id := "rfnd_2", amount := 20000, status := "processed" }

/-- A refund oracle that always reports `refundFix200`. -/
def gwRefund200 : String → Option ℤ → Option GatewayRefund := fun _ _ => some refundFix200

/-- A gateway intent fixture for the create-order route. -/
def intentFix : GatewayIntent :=
  { id := "order_1", amount := 13, currency := "INR", receipt := "R-1", status := "created" }

def ciFix : CustomerInfo :=
  { firstName := "A", lastName := "B", email := "a@b.c", phoneNumber := "123" }

def addrFix : Address :=
  { streetAddress := "S", city := "C", state := "St", postalCode := "0", country := "IN" }

def itemFix : OrderItem :=
  { productId := some "p1", productName := some "P", quantity := 1,
    unitPrice := 10, totalPrice := 10 }

def pricingFix (t : ℚ) : Pricing :=
  { subtotal := t, tax := 0, shipping := 0, discount := 0, total := t }

def embPayFix : EmbeddedPayment :=
  { method := "Razorpay", status := "Pending", transactionId := none, paidAt := none }

/-- A well-formed generic order-creation body with the given total. -/
def bodyFix (t : ℚ) : OrderBody :=
  { customerInfo := some ciFix, shippingAddress := addrFix, billingAddress := addrFix,
    items := some [itemFix], pricing := some (pricingFix t), payment := embPayFix,
    status := "Pending" }

/-- The payload `POST /api/orders` hands to `Order.create` for `bodyFix t`. -/
def payloadFix (t : ℚ) : OrderPayload :=
  { customerInfo := ciFix, shippingAddress := addrFix, billingAddress := addrFix,
    items := [itemFix], pricing := pricingFix t, payment := embPayFix,
    status := "Pending" }

/-- The Order the coordinator persists for a draft with no `totalPrice`. -/
def oNT : OrderRec := mkOrder emptyDB (buildOrderPayload (some draftNoTotal) "pay_1")

/-- The Payment the coordinator persists alongside `oNT`. -/
def pNT : PaymentRec :=
  mkPayment { orders := [oNT], payments := [] }
    (buildPaymentData 0 (some draftNoTotal) "order_1" "pay_1" sig1 gpCaptured oNT)

/-- The database after settling the no-total draft. -/
def dbNT : DB := { orders := [oNT], payments := [pNT] }

/-! ## Helper lemmas -/

set_option maxRecDepth 1000000

theorem hexDigit_mem (n : Nat) : SHA256.hexDigits.getD (n % 16) '0' ∈ SHA256.hexDigits := by
  have hlen : SHA256.hexDigits.length = 16 := by decide
  have h : n % 16 < SHA256.hexDigits.length := by
    rw [hlen]; exact Nat.mod_lt _ (by norm_num)
  rw [List.getD_eq_getElem _ _ h]
  exact List.getElem_mem h

theorem mem_hexFoldr (t : List Nat) (c : Char)
    (hc : c ∈ t.foldr (fun b acc =>
        SHA256.hexDigits.getD (b >>> 4 % 16) '0' ::
          SHA256.hexDigits.getD (b % 16) '0' :: acc) []) : c ∈ SHA256.hexDigits := by
  induction t with
  | nil => simp at hc
  | cons b t ih =>
    simp only [List.foldr_cons, List.mem_cons] at hc
    rcases hc with rfl | rfl | hc
    · exact hexDigit_mem _
    · exact hexDigit_mem _
    · exact ih hc

theorem mem_bytesToHex (l : List Nat) (c : Char)
    (hc : c ∈ (SHA256.bytesToHex l).toList) : c ∈ SHA256.hexDigits :=
  mem_hexFoldr l c hc

theorem jsRound_bounds (q : ℚ) :
    q - 1 / 2 < (jsRound q : ℚ) ∧ (jsRound q : ℚ) ≤ q + 1 / 2 := by
  unfold jsRound
  constructor
  · have h := Int.lt_floor_add_one (q + 1 / 2)
    push_cast at h ⊢
    linarith
  · exact Int.floor_le (q + 1 / 2)

/-- Inversion of a successful settlement: the created Order is exactly the
payload built from the draft, the created Payment is the one built from the
gateway fetch and that Order, and each collection grew by exactly that one
record. -/
theorem verifyPayment_success_inv
    (f : String → Option GatewayPayment) (now : Nat) (db : DB)
    (oid pid sig : Option String) (od : Option OrderDraft)
    (o : OrderRec) (p : PaymentRec) (db' : DB)
    (h : verifyPayment f now db oid pid sig od = (.success o p, db')) :
    ∃ gp, f (pid.getD "") = some gp ∧
      o = mkOrder db (buildOrderPayload od (pid.getD "")) ∧
      p = mkPayment { db with orders := db.orders ++ [o] }
            (buildPaymentData now od (oid.getD "") (pid.getD "") (sig.getD "") gp o) ∧
      db' = { orders := db.orders ++ [o], payments := db.payments ++ [p] } := by
  unfold verifyPayment at h
  split at h
  · simp at h
  · dsimp only at h
    split at h
    · unfold orderCreate paymentCreate at h
      cases hf : f (pid.getD "") with
      | none => rw [hf] at h; simp at h
      | some gp =>
        rw [hf] at h
        dsimp only at h
        split at h
        · simp at h
        · rename_i newOrder db1 heq
          split at heq
          · simp only [Except.ok.injEq, Prod.mk.injEq] at heq
            obtain ⟨rfl, rfl⟩ := heq
            split at h
            · simp at h
            · rename_i newPayment db2 heq2
              split at heq2
              · simp only [Except.ok.injEq, Prod.mk.injEq] at heq2
                obtain ⟨rfl, rfl⟩ := heq2
                simp only [Prod.mk.injEq, SettleResult.success.injEq] at h
                obtain ⟨⟨rfl, rfl⟩, rfl⟩ := h
                exact ⟨gp, rfl, rfl, rfl, rfl⟩
              · simp at heq2
          · simp at heq
    · simp at h

/-- Forward evaluation of a successful settlement: with present fields, a
matching signature, a successful gateway fetch, a valid order payload and a
fresh, valid payment, `verifyPayment` persists exactly the built Order and
Payment. -/
theorem verifyPayment_success_eval
    (f : String → Option GatewayPayment) (now : Nat) (db : DB)
    (oidS pidS : String) (od : Option OrderDraft) (gp : GatewayPayment)
    (h1 : oidS ≠ "") (h2 : pidS ≠ "") (h3 : expectedSignature oidS pidS ≠ "")
    (hf : f pidS = some gp)
    (hov : orderValid (mkOrder db (buildOrderPayload od pidS)) = true)
    (hall : db.payments.all
      (fun q => q.paymentId !=
        (mkPayment { orders := db.orders ++ [mkOrder db (buildOrderPayload od pidS)],
                     payments := db.payments }
          (buildPaymentData now od oidS pidS (expectedSignature oidS pidS) gp
            (mkOrder db (buildOrderPayload od pidS)))).paymentId) = true)
    (hpv : paymentValid
      (mkPayment { orders := db.orders ++ [mkOrder db (buildOrderPayload od pidS)],
                   payments := db.payments }
        (buildPaymentData now od oidS pidS (expectedSignature oidS pidS) gp
          (mkOrder db (buildOrderPayload od pidS)))) = true) :
    verifyPayment f now db (some oidS) (some pidS)
        (some (expectedSignature oidS pidS)) od
      = (.success (mkOrder db (buildOrderPayload od pidS))
           (mkPayment { orders := db.orders ++ [mkOrder db (buildOrderPayload od pidS)],
                        payments := db.payments }
             (buildPaymentData now od oidS pidS (expectedSignature oidS pidS) gp
               (mkOrder db (buildOrderPayload od pidS)))),
         { orders := db.orders ++ [mkOrder db (buildOrderPayload od pidS)],
           payments := db.payments ++
             [mkPayment { orders := db.orders ++ [mkOrder db (buildOrderPayload od pidS)],
                          payments := db.payments }
               (buildPaymentData now od oidS pidS (expectedSignature oidS pidS) gp
                 (mkOrder db (buildOrderPayload od pidS)))] }) := by
  have hmf : (strFalsy (some oidS) || strFalsy (some pidS) ||
      strFalsy (some (expectedSignature oidS pidS))) = false := by
    simp [strFalsy, h1, h2, h3]
  have hauth : isAuthentic oidS pidS (expectedSignature oidS pidS) = true := by
    simp [isAuthentic]
  simp [verifyPayment, hmf, hauth, hf, orderCreate, hov, paymentCreate, hall, hpv]

/-! ## Claims -/

/-- Claim C1 (corrected): the coordinator performs no lookup of an existing
Payment before writing.  A repeated callback with the same gateway payment id
and a valid signature creates a second Order; the Payment insert then fails on
the unique `paymentId` index, so no duplicate Payment is stored, and the route
answers with an error instead of the first call's settlement result. -/
theorem C1_repeated_settle_creates_second_order
    (f : String → Option GatewayPayment) (now : Nat) (db : DB)
    (oidS pidS : String) (od : Option OrderDraft) (gp : GatewayPayment)
    (h1 : oidS ≠ "") (h2 : pidS ≠ "") (h3 : expectedSignature oidS pidS ≠ "")
    (hf : f pidS = some gp)
    (horder : orderValid (mkOrder db (buildOrderPayload od pidS)) = true)
    (hdup : ∃ q ∈ db.payments, q.paymentId = pidS) :
    verifyPayment f now db (some oidS) (some pidS)
        (some (expectedSignature oidS pidS)) od
      = (.paymentCreateFailed,
         { db with orders := db.orders ++ [mkOrder db (buildOrderPayload od pidS)] }) := by
  have hmf : (strFalsy (some oidS) || strFalsy (some pidS) ||
      strFalsy (some (expectedSignature oidS pidS))) = false := by
    simp [strFalsy, h1, h2, h3]
  have hauth : isAuthentic oidS pidS (expectedSignature oidS pidS) = true := by
    simp [isAuthentic]
  have hall : db.payments.all
      (fun q => q.paymentId !=
        (mkPayment { db with orders := db.orders ++ [mkOrder db (buildOrderPayload od pidS)] }
          (buildPaymentData now od oidS pidS (expectedSignature oidS pidS) gp
            (mkOrder db (buildOrderPayload od pidS)))).paymentId) = false := by
    rw [List.all_eq_false]
    obtain ⟨q, hq, hqe⟩ := hdup
    exact ⟨q, hq, by simp [mkPayment, buildPaymentData, hqe]⟩
  simp [verifyPayment, hmf, hauth, hf, orderCreate, horder, paymentCreate, hall]

/-- Witness for C1: the concrete repeated callback against a database already
holding a Payment with gateway payment id `pay_1`. -/
theorem C1_repeated_settle_creates_second_order_witness :
    verifyPayment fetch1 0 dbWithPay (some "order_1") (some "pay_1")
        (some (expectedSignature "order_1" "pay_1")) (some draft1)
      = (.paymentCreateFailed,
         { dbWithPay with
             orders := dbWithPay.orders ++
               [mkOrder dbWithPay (buildOrderPayload (some draft1) "pay_1")] }) :=
  C1_repeated_settle_creates_second_order fetch1 0 dbWithPay "order_1" "pay_1"
    (some draft1) gpCaptured (by decide) (by decide) (by decide) (by decide)
    (by decide) ⟨payFix, by decide, rfl⟩

/-- Counterexample to C1 as stated: settling the same callback twice leaves
two Orders and one Payment, and the second response is an error, not the first
call's result. -/
theorem C1_counterexample :
    (let r1 := verifyPayment fetch1 0 emptyDB (some "order_1") (some "pay_1")
        (some sig1) (some draft1)
     let r2 := verifyPayment fetch1 0 r1.2 (some "order_1") (some "pay_1")
        (some sig1) (some draft1)
     r1.1.isSuccess = true ∧ r2.1 = .paymentCreateFailed ∧
       r2.2.orders.length = 2 ∧ r2.2.payments.length = 1 ∧ r2.1 ≠ r1.1) := by
  decide

/-- Claim C2 (corrected): a successful settlement appends exactly one Order
and one Payment, and the Payment references the created Order's id exactly
when the draft does not supply its own `orderId`; a draft-supplied id is
stored instead. -/
theorem C2_settle_appends_one_order_one_payment
    (f : String → Option GatewayPayment) (now : Nat) (db : DB)
    (oid pid sig : Option String) (od : Option OrderDraft)
    (o : OrderRec) (p : PaymentRec) (db' : DB)
    (h : verifyPayment f now db oid pid sig od = (.success o p, db')) :
    db'.orders = db.orders ++ [o] ∧ db'.payments = db.payments ++ [p] ∧
      p.orderId = (od.bind (·.orderId)).getD o.id := by
  obtain ⟨gp, hf, ho, hp, hdb⟩ :=
    verifyPayment_success_inv f now db oid pid sig od o p db' h
  refine ⟨by rw [hdb], by rw [hdb], ?_⟩
  rw [hp]
  simp only [mkPayment, buildPaymentData]
  cases od.bind (·.orderId) <;> simp [Option.getD]

/-- Witness for C2: the fixture settlement run. -/
theorem C2_settle_appends_one_order_one_payment_witness :
    dbExp.orders = emptyDB.orders ++ [oExp] ∧
      dbExp.payments = emptyDB.payments ++ [pExp] ∧
      pExp.orderId = ((some draft1).bind (·.orderId)).getD oExp.id :=
  C2_settle_appends_one_order_one_payment fetch1 0 emptyDB (some "order_1")
    (some "pay_1") (some sig1) (some draft1) oExp pExp dbExp (by decide)

/-- Counterexample to C2 as stated: when the draft carries `orderId: 999`, the
created Payment's `orderId` is 999 while the created Order's id is 0. -/
theorem C2_counterexample :
    (let r := verifyPayment fetch1 0 emptyDB (some "order_1") (some "pay_1")
        (some sig1) (some draftOid)
     r.1.isSuccess = true ∧ r.2.payments.map (fun p => p.orderId) = [999] ∧
       r.2.orders.map (fun o => o.id) = [0] ∧ (999 : Nat) ≠ 0) := by
  decide

/-- Claim C3 (confirmed): a callback whose signature differs from the expected
HMAC fails with the invalid-signature error and the database is returned
completely unchanged — no Order, no Payment, no modification. -/
theorem C3_invalid_signature_no_writes
    (f : String → Option GatewayPayment) (now : Nat) (db : DB)
    (oidS pidS sigS : String) (od : Option OrderDraft)
    (h1 : oidS ≠ "") (h2 : pidS ≠ "") (h3 : sigS ≠ "")
    (hbad : sigS ≠ expectedSignature oidS pidS) :
    verifyPayment f now db (some oidS) (some pidS) (some sigS) od
      = (.invalidSignature, db) := by
  have hmf : (strFalsy (some oidS) || strFalsy (some pidS) ||
      strFalsy (some sigS)) = false := by
    simp [strFalsy, h1, h2, h3]
  have hauth : isAuthentic oidS pidS sigS = false := by
    simp [isAuthentic]
    exact fun hc => hbad hc.symm
  simp [verifyPayment, hmf, hauth]

/-- Witness for C3: a concrete wrong signature against a populated database. -/
theorem C3_invalid_signature_no_writes_witness :
    verifyPayment fetch1 0 dbWithPay (some "order_1") (some "pay_1")
        (some "deadbeef") (some draft1) = (.invalidSignature, dbWithPay) :=
  C3_invalid_signature_no_writes fetch1 0 dbWithPay "order_1" "pay_1" "deadbeef"
    (some draft1) (by decide) (by decide) (by decide) (by decide)

/-- Claim C4 (confirmed): signature verification succeeds exactly when the
submitted signature equals the HMAC-SHA256 of `gatewayOrderId + "|" +
gatewayPaymentId` keyed with the configured secret, hex-encoded; the digest is
always over the lowercase hex alphabet, and any other signature yields `false`
(the check is a total function). -/
theorem C4_signature_verification :
    (∀ oid pid sig, isAuthentic oid pid sig = true ↔
       sig = hmacSha256Hex razorpayKeySecret (oid ++ "|" ++ pid))
    ∧ (∀ key msg c, c ∈ (hmacSha256Hex key msg).toList → c ∈ SHA256.hexDigits) := by
  constructor
  · intro oid pid sig
    simp only [isAuthentic, expectedSignature, beq_iff_eq]
    exact eq_comm
  · intro key msg c hc
    exact mem_bytesToHex _ _ hc

/-- Witness for C4: the fixture signature, and the first hex digit of the
fixture digest. -/
theorem C4_signature_verification_witness :
    (isAuthentic "order_1" "pay_1" sig1 = true ↔
       sig1 = hmacSha256Hex razorpayKeySecret ("order_1" ++ "|" ++ "pay_1"))
    ∧ 'd' ∈ SHA256.hexDigits :=
  ⟨C4_signature_verification.1 "order_1" "pay_1" sig1,
   C4_signature_verification.2 razorpayKeySecret ("order_1" ++ "|" ++ "pay_1") 'd'
     (by decide)⟩

/-- Claim C5 (code bug): when the gateway confirms a refund (`status ==
"processed"`), the route stores that lowercase status into
`refundDetails.refundStatus`, whose schema enum is
`["Pending", "Processed", "Failed"]`; `payment.save()` therefore always fails
validation, the route answers 500, and the Payment record is never updated —
the statuses `Refunded`/`Partially Refunded` are unreachable on this path. -/
theorem C5_refund_update_never_persists
    (gw : String → Option ℤ → Option GatewayRefund) (now : Nat) (db : DB)
    (pidS : String) (amt : Option ℚ) (notes : Option String)
    (p : PaymentRec) (r : GatewayRefund)
    (h0 : pidS ≠ "")
    (hfind : db.payments.find? (fun q => q.paymentId == pidS) = some p)
    (hgw : gw pidS (refundAmountPaise amt) = some r)
    (hst : r.status = "processed") :
    refundRoute gw now db (some pidS) amt notes
      = (.serverError, db, [(pidS, refundAmountPaise amt)]) := by
  have hval : paymentValid (applyRefund now r (jsOrS notes "Customer request") p)
      = false := by
    simp [paymentValid, applyRefund, hst, refundStatusEnum]
  have hsv : paymentSave db (applyRefund now r (jsOrS notes "Customer request") p)
      = .error () := by
    simp [paymentSave, hval]
  simp [refundRoute, strFalsy, h0, hgw, hfind, hsv]

/-- Witness for C5: a full refund of the stored 499.00 Payment, confirmed by
the gateway, still answers 500 and leaves the database unchanged. -/
theorem C5_refund_update_never_persists_witness :
    refundRoute gwRefund 0 dbWithPay (some "pay_1") none none
      = (.serverError, dbWithPay, [("pay_1", refundAmountPaise none)]) :=
  C5_refund_update_never_persists gwRefund 0 dbWithPay "pay_1" none none
    payFix refundFix (by decide) (by decide) rfl rfl

/-- Claim C6 (corrected): the refund route never checks for a Payment record
before calling the gateway.  With no matching Payment stored, the gateway
refund is still issued and the route reports success with the gateway's data;
no record is modified. -/
theorem C6_refund_without_record_reports_success
    (gw : String → Option ℤ → Option GatewayRefund) (now : Nat) (db : DB)
    (pidS : String) (amt : Option ℚ) (notes : Option String) (r : GatewayRefund)
    (h0 : pidS ≠ "")
    (hfind : db.payments.find? (fun q => q.paymentId == pidS) = none)
    (hgw : gw pidS (refundAmountPaise amt) = some r) :
    refundRoute gw now db (some pidS) amt notes
      = (.success r.id ((r.amount : ℚ) / 100) r.status, db,
         [(pidS, refundAmountPaise amt)]) := by
  simp [refundRoute, strFalsy, h0, hgw, hfind]

/-- Witness for C6: a refund for `pay_9`, for which no Payment exists. -/
theorem C6_refund_without_record_reports_success_witness :
    refundRoute gwRefund200 0 emptyDB (some "pay_9") none none
      = (.success refundFix200.id ((refundFix200.amount : ℚ) / 100)
           refundFix200.status, emptyDB, [("pay_9", refundAmountPaise none)]) :=
  C6_refund_without_record_reports_success gwRefund200 0 emptyDB "pay_9" none
    none refundFix200 (by decide) rfl rfl

/-- Counterexample to C6 as stated: a refund of 200.00 against `pay_z`, which
has no Payment record, issues the gateway call (trace non-empty) and answers
success rather than failing with NotFound. -/
theorem C6_counterexample :
    refundRoute gwRefund200 0 emptyDB (some "pay_z") (some 200) none
      = (.success "rfnd_2" 200 "processed", emptyDB, [("pay_z", some 20000)]) := by
  have hamt : refundAmountPaise (some 200) = some 20000 := by
    rw [refundAmountPaise]; norm_num [jsRound]
  simp [refundRoute, strFalsy, hamt, gwRefund200, refundFix200, emptyDB]
  norm_num

/-- Claim C7 (code bug): for every recognized status value the payment
status-update handler reads `payment` inside its own `const` initializer
(temporal dead zone), so the route always throws and answers 500 with the
database untouched; it never returns the updated Payment nor sets any
timestamp. -/
theorem C7_update_payment_status_always_500 (db : DB) (id : Nat) (s : String)
    (h : validStatuses.contains s = true) :
    updatePaymentStatusRoute db id s = (.serverError, db) := by
  have hm : s ∈ validStatuses := by simpa using h
  simp [updatePaymentStatusRoute, hm]

/-- Witness for C7: updating the stored Payment to `Completed`. -/
theorem C7_update_payment_status_always_500_witness :
    updatePaymentStatusRoute dbWithPay 0 "Completed" = (.serverError, dbWithPay) :=
  C7_update_payment_status_always_500 dbWithPay 0 "Completed" (by decide)

/-- Claim C8 (corrected): the generic order-creation endpoint rejects any
request whose `pricing.total` is 0 or negative and persists nothing, and every
Order it does create has `pricing.total > 0`; the Settlement Coordinator,
however, defaults the built payload's total to 0 whenever the draft carries no
`totalPrice`, and the schema only enforces `total >= 0`. -/
theorem C8_total_validation :
    (∀ (db : DB) (body : OrderBody) (pr : Pricing),
       body.pricing = some pr → pr.total ≤ 0 →
       (ordersCreateRoute db body).2 = db ∧
         ((ordersCreateRoute db body).1).isSuccess = false)
    ∧ (∀ (db : DB) (body : OrderBody) (o : OrderRec) (db' : DB),
        ordersCreateRoute db body = (.success o, db') →
        0 < o.pricing.total ∧ db'.orders = db.orders ++ [o])
    ∧ (∀ (od : Option OrderDraft) (pid : String),
        od.bind (·.totalPrice) = none →
        (buildOrderPayload od pid).pricing.total = 0) := by
  refine ⟨?_, ?_, ?_⟩
  · intro db body pr hpr hle
    unfold ordersCreateRoute
    cases hci : body.customerInfo with
    | none => simp [CreateOrderEpResult.isSuccess]
    | some ci =>
      cases hit : body.items with
      | none => simp [CreateOrderEpResult.isSuccess]
      | some its =>
        rw [hpr]
        by_cases hlen : its.length = 0
        · simp [hlen, CreateOrderEpResult.isSuccess]
        · have hcond : pr.total = 0 ∨ pr.total ≤ 0 := Or.inr hle
          simp [hlen, hcond, CreateOrderEpResult.isSuccess]
  · intro db body o db' h
    unfold ordersCreateRoute at h
    split at h
    · rename_i ci its pr
      split at h
      · simp at h
      · split at h
        · simp at h
        · rename_i hlen hcond
          unfold orderCreate at h
          dsimp only at h
          split at h
          · rename_i err heq
            split at heq
            · simp at heq
            · simp at h
          · rename_i pair heq
            split at heq
            · rename_i hvalid
              simp only [Except.ok.injEq, Prod.mk.injEq] at heq
              obtain ⟨hA, hB⟩ := heq
              subst hA
              subst hB
              simp only [Prod.mk.injEq, CreateOrderEpResult.success.injEq] at h
              obtain ⟨rfl, rfl⟩ := h
              constructor
              · push_neg at hcond
                exact hcond.2
              · rfl
            · simp at heq
    · simp at h
  · intro od pid h
    simp [buildOrderPayload, draftTotal, jsOrQ, h]

/-- Witness for C8: the endpoint rejects a total of 0 and accepts a total of
499, and the coordinator's payload for a draft without `totalPrice` has
total 0. -/
theorem C8_total_validation_witness :
    ((ordersCreateRoute emptyDB (bodyFix 0)).2 = emptyDB ∧
       ((ordersCreateRoute emptyDB (bodyFix 0)).1).isSuccess = false) ∧
    (0 < (mkOrder emptyDB (payloadFix 499)).pricing.total ∧
       ({ orders := [mkOrder emptyDB (payloadFix 499)], payments := [] } : DB).orders
         = emptyDB.orders ++ [mkOrder emptyDB (payloadFix 499)]) ∧
    (buildOrderPayload (some draftNoTotal) "pay_1").pricing.total = 0 :=
  ⟨C8_total_validation.1 emptyDB (bodyFix 0) (pricingFix 0) rfl (by
     simp [pricingFix]),
   C8_total_validation.2.1 emptyDB (bodyFix 499) (mkOrder emptyDB (payloadFix 499))
     ({ orders := [mkOrder emptyDB (payloadFix 499)], payments := [] } : DB)
     (by decide),
   C8_total_validation.2.2 (some draftNoTotal) "pay_1" rfl⟩

/-- Counterexample to C8 as stated: a valid captured callback whose draft has
no `totalPrice` settles successfully and persists an Order with
`pricing.total = 0`. -/
theorem C8_counterexample :
    (verifyPayment fetch1 0 emptyDB (some "order_1") (some "pay_1") (some sig1)
        (some draftNoTotal)).1.isSuccess = true ∧
      (verifyPayment fetch1 0 emptyDB (some "order_1") (some "pay_1") (some sig1)
        (some draftNoTotal)).2.orders.map (fun o => o.pricing.total) = [0] := by
  have hpv : paymentValid
      (mkPayment { orders := emptyDB.orders ++
                     [mkOrder emptyDB (buildOrderPayload (some draftNoTotal) "pay_1")],
                   payments := emptyDB.payments }
        (buildPaymentData 0 (some draftNoTotal) "order_1" "pay_1"
          (expectedSignature "order_1" "pay_1") gpCaptured
          (mkOrder emptyDB (buildOrderPayload (some draftNoTotal) "pay_1")))) = true := by
    unfold paymentValid mkPayment buildPaymentData
    simp [draftNoTotal, jsOrQ, gpCaptured, paymentStatuses]
    norm_num
  have hrun := verifyPayment_success_eval fetch1 0 emptyDB "order_1" "pay_1"
    (some draftNoTotal) gpCaptured (by decide) (by decide) (by decide) (by decide)
    (by decide) (by decide) hpv
  rw [show sig1 = expectedSignature "order_1" "pay_1" from rfl, hrun]
  exact ⟨rfl, by decide⟩

/-- Claim C9 (corrected): both gateway-bound conversions send
`Math.round(amount * 100)` — the unique integer `c` with
`amount*100 - 1/2 < c <= amount*100 + 1/2`, i.e. round half UP — not banker's
round-half-to-even. -/
theorem C9_amount_round_half_up :
    (∀ (create : CreateIntentOptions → Option GatewayIntent) (a : ℚ)
       (cur rcpt : Option String) (opts : CreateIntentOptions),
       (razorpayCreateOrder create (some a) cur rcpt).2 = some opts →
       opts.amount = jsRound (a * 100) ∧
         a * 100 - 1 / 2 < (opts.amount : ℚ) ∧ (opts.amount : ℚ) ≤ a * 100 + 1 / 2)
    ∧ (∀ (a : ℚ) (z : ℤ), refundAmountPaise (some a) = some z →
       z = jsRound (a * 100) ∧
         a * 100 - 1 / 2 < (z : ℚ) ∧ (z : ℚ) ≤ a * 100 + 1 / 2) := by
  constructor
  · intro create a cur rcpt opts h
    unfold razorpayCreateOrder at h
    dsimp only at h
    split at h
    · simp at h
    · split at h
      · simp at h
      · split at h
        · simp at h
        · split at h
          · simp only [Option.some.injEq] at h
            subst h
            exact ⟨rfl, jsRound_bounds (a * 100)⟩
          · simp only [Option.some.injEq] at h
            subst h
            exact ⟨rfl, jsRound_bounds (a * 100)⟩
  · intro a z h
    unfold refundAmountPaise at h
    dsimp only at h
    split at h
    · simp only [Option.some.injEq] at h
      subst h
      exact ⟨rfl, jsRound_bounds (a * 100)⟩
    · simp at h

/-- Witness for C9: the intent options sent for 0.125, and the refund paise
for 0.125, are both 13 = Math.round(12.5). -/
theorem C9_amount_round_half_up_witness :
    ((⟨13, "INR", "R-1"⟩ : CreateIntentOptions).amount = jsRound ((1 / 8 : ℚ) * 100) ∧
       (1 / 8 : ℚ) * 100 - 1 / 2 < ((⟨13, "INR", "R-1"⟩ : CreateIntentOptions).amount : ℚ) ∧
       ((⟨13, "INR", "R-1"⟩ : CreateIntentOptions).amount : ℚ) ≤ (1 / 8 : ℚ) * 100 + 1 / 2) ∧
    ((13 : ℤ) = jsRound ((1 / 8 : ℚ) * 100) ∧
       (1 / 8 : ℚ) * 100 - 1 / 2 < ((13 : ℤ) : ℚ) ∧
       ((13 : ℤ) : ℚ) ≤ (1 / 8 : ℚ) * 100 + 1 / 2) :=
  ⟨C9_amount_round_half_up.1 (fun _ => some intentFix) (1 / 8) none (some "R-1")
     ⟨13, "INR", "R-1"⟩ (by
       have h13 : jsRound ((25 : ℚ) / 2) = 13 := by rw [jsRound]; norm_num
       norm_num [razorpayCreateOrder, strFalsy, h13]
       rw [if_neg (by decide)]),
   C9_amount_round_half_up.2 (1 / 8) 13 (by
       rw [refundAmountPaise]; norm_num [jsRound])⟩

/-- Counterexample to C9 as stated: for amount 0.125 the code sends 13 paise
(Math.round of 12.5) while banker's rounding of 12.5 is 12. -/
theorem C9_counterexample :
    (razorpayCreateOrder (fun _ => some intentFix) (some (1 / 8 : ℚ)) none
        (some "R-1")).2 = some { amount := 13, currency := "INR", receipt := "R-1" } ∧
      specBankersRound ((1 / 8 : ℚ) * 100) = 12 ∧ ((13 : ℤ) ≠ 12) := by
  refine ⟨?_, ?_, by decide⟩
  · have h13 : jsRound ((25 : ℚ) / 2) = 13 := by rw [jsRound]; norm_num
    norm_num [razorpayCreateOrder, strFalsy, h13]
    rw [if_neg (by decide)]
  · rw [specBankersRound]; norm_num

/-- Claim C10 (confirmed): after a successful settlement of a captured
gateway payment, the created Order's embedded payment summary has status
`Pending` and no `paidAt`, while the linked Payment record's status is
`Completed`; the coordinator never writes `Paid` into the Order. -/
theorem C10_embedded_payment_stays_pending
    (f : String → Option GatewayPayment) (now : Nat) (db : DB)
    (oid pid sig : Option String) (od : Option OrderDraft) (gp : GatewayPayment)
    (o : OrderRec) (p : PaymentRec) (db' : DB)
    (hf : f (pid.getD "") = some gp) (hcap : gp.status = "captured")
    (h : verifyPayment f now db oid pid sig od = (.success o p, db')) :
    o.payment.status = "Pending" ∧ o.payment.paidAt = none ∧
      p.status = "Completed" ∧ db'.orders = db.orders ++ [o] := by
  obtain ⟨gp', hf', ho, hp, hdb⟩ :=
    verifyPayment_success_inv f now db oid pid sig od o p db' h
  rw [hf] at hf'
  injection hf' with hgp
  subst hgp
  refine ⟨?_, ?_, ?_, by rw [hdb]⟩
  · rw [ho]; rfl
  · rw [ho]; rfl
  · rw [hp]; simp [mkPayment, buildPaymentData, hcap]

/-- Witness for C10: the fixture settlement of the captured payment. -/
theorem C10_embedded_payment_stays_pending_witness :
    oExp.payment.status = "Pending" ∧ oExp.payment.paidAt = none ∧
      pExp.status = "Completed" ∧ dbExp.orders = emptyDB.orders ++ [oExp] :=
  C10_embedded_payment_stays_pending fetch1 0 emptyDB (some "order_1")
    (some "pay_1") (some sig1) (some draft1) gpCaptured oExp pExp dbExp
    (by decide) rfl (by decide)
